import Mathlib

/-!
Shallow embedding of the WGAN-GP training core of the `Rich` repository
(`src/models/wgan.py` and `src/trainer.py`), together with theorems that
settle the specification claims about it.

Conventions used throughout:
* Python strings are Lean `String`s; Python `str.lower()` is `pyLower`
  (ASCII case folding, which is what the architecture names exercise).
* Python functions that can raise are embedded as `Except`-valued
  functions; the error payload records the exception message.
* Tensors appear at three levels of abstraction, matching what each claim
  needs: shape level (`Shape = List Nat`), value level (lists of real
  rows), and autograd-graph level (`GTensor`, which tracks which network's
  parameters a backward pass from the tensor can reach).
* Functions imported by `wgan.py` from the `models` package
  (`get_noise`, `get_gradient`, `gradient_penalty`) are not part of the
  sources; their definitions below are modelled from the spec and say so
  in their doc comments.
-/

/-- Python `str.lower()` on one character, for the ASCII range: uppercase
letters `A`–`Z` (codepoints 65–90) map to the corresponding lowercase
letter (codepoint + 32); every other character is unchanged. -/
def pyCharToLower (c : Char) : Char :=
  if 65 ≤ c.toNat ∧ c.toNat ≤ 90 then Char.ofNat (c.toNat + 32) else c

/-- Python `str.lower()`: lowercase every character. -/
def pyLower (s : String) : String :=
  String.mk (s.data.map pyCharToLower)

/-- Lowercasing never produces a character in the uppercase range `A`–`Z`:
uppercase letters move out of the range, and characters outside it are
kept only because they are outside it. -/
theorem pyCharToLower_ne_upper (c t : Char) (h65 : 65 ≤ t.toNat) (h90 : t.toNat ≤ 90) :
    pyCharToLower c ≠ t := by
  unfold pyCharToLower
  split
  · rename_i hc
    intro heq
    obtain ⟨h1, h2⟩ := hc
    generalize hg : c.toNat = m at h1 h2 heq
    interval_cases m <;> (subst heq; exact absurd h90 (by decide))
  · rename_i hc
    intro heq
    subst heq
    exact hc ⟨h65, h90⟩

/-- A lowercased string never equals a string whose first character is an
uppercase ASCII letter. -/
theorem pyLower_ne_of_upper_head (s : String) (t : Char) (rest : List Char)
    (h65 : 65 ≤ t.toNat) (h90 : t.toNat ≤ 90) :
    pyLower s ≠ String.mk (t :: rest) := by
  intro h
  have hd : s.data.map pyCharToLower = t :: rest := congrArg String.data h
  cases hl : s.data with
  | nil => rw [hl] at hd; exact List.noConfusion hd
  | cons c cs =>
      rw [hl] at hd
      simp only [List.map_cons] at hd
      exact pyCharToLower_ne_upper c t h65 h90 (List.cons.inj hd).1

/-- No lowercased string equals the uppercase literal `"NODE"`. -/
theorem pyLower_ne_NODE (s : String) : pyLower s ≠ "NODE" := by
  have h : ("NODE" : String) = String.mk ('N' :: ['O', 'D', 'E']) := rfl
  rw [h]
  exact pyLower_ne_of_upper_head s 'N' ['O', 'D', 'E'] (by decide) (by decide)

/-- No lowercased string equals the uppercase literal `"FCN"`. -/
theorem pyLower_ne_FCN (s : String) : pyLower s ≠ "FCN" := by
  have h : ("FCN" : String) = String.mk ('F' :: ['C', 'N']) := rfl
  rw [h]
  exact pyLower_ne_of_upper_head s 'F' ['C', 'N'] (by decide) (by decide)

/-- The slice of the configuration dictionary read by the architecture
dispatch in `WGAN.create_generator` and `WGAN.create_critic`
(`wgan.py` lines 45–80): the two architecture-name strings. The nested
per-network dictionaries (`params`, `optimizer`, hyperparameters,
`checkpoint_path`) only feed the external model factory and the optimizer
construction and play no role in the dispatch itself. -/
structure WGANConfig where
  generator_architecture : String
  critic_architecture : String

/-- Result of the external model factory (`create_node_model` /
`create_fcn_model`), abstracted to which factory was invoked. -/
inductive NetModel where
  | nodeModel : NetModel
  | fcnModel : NetModel
deriving DecidableEq

/-- Embedding of `WGAN.create_generator` (`wgan.py` lines 45–59): the
first branch tests `params["generator_architecture"].lower() == "NODE"`
(uppercase literal), the second branch tests
`params["critic_architecture"].lower() == "FCN"` (uppercase literal, and
the critic's key), and the else branch raises
`NameError("Unknown generator architecture: ...")`. -/
def create_generator (c : WGANConfig) : Except String NetModel :=
  if pyLower c.generator_architecture = "NODE" then Except.ok NetModel.nodeModel
  else if pyLower c.critic_architecture = "FCN" then Except.ok NetModel.fcnModel
  else Except.error ("Unknown generator architecture: " ++ c.generator_architecture)

/-- Embedding of `WGAN.create_critic` (`wgan.py` lines 66–80): branches
test `params["critic_architecture"].lower()` against the lowercase
literals `"node"` and `"fcn"`; the else branch raises
`NameError("Unknown critic architecture: ...")`. -/
def create_critic (c : WGANConfig) : Except String NetModel :=
  if pyLower c.critic_architecture = "node" then Except.ok NetModel.nodeModel
  else if pyLower c.critic_architecture = "fcn" then Except.ok NetModel.fcnModel
  else Except.error ("Unknown critic architecture: " ++ c.critic_architecture)

/-- Embedding of `WGAN.__init__` (`wgan.py` lines 19–22): store the
config, build the generator, then build the critic; a raise in either
builder propagates. -/
def wgan_init (c : WGANConfig) : Except String (NetModel × NetModel) := do
  let g ← create_generator c
  let cr ← create_critic c
  pure (g, cr)

/-- C3: for every configuration value, `WGAN.__init__` raises an error and
construction never succeeds: `create_generator` compares the lower-cased
generator architecture name with the upper-case literal `"NODE"` (never
equal), its fallback branch compares the lower-cased critic architecture
name with the upper-case literal `"FCN"` (never equal), so the else
branch raising `NameError` is always taken. -/
theorem C3_construction_always_fails (c : WGANConfig) :
    pyLower c.generator_architecture ≠ "NODE" ∧
    pyLower c.critic_architecture ≠ "FCN" ∧
    wgan_init c =
      Except.error ("Unknown generator architecture: " ++ c.generator_architecture) := by
  refine ⟨pyLower_ne_NODE _, pyLower_ne_FCN _, ?_⟩
  unfold wgan_init create_generator
  rw [if_neg (pyLower_ne_NODE _), if_neg (pyLower_ne_FCN _)]
  rfl

/-- C2 (counterevidence): the architecture name `"node"`, which the claim
places inside the accepted set `{NODE, FCN}` (case-insensitively), is
rejected: construction raises the unknown-architecture `NameError` even
though the critic-side dispatch would accept the same pair of names. -/
theorem C2_in_set_name_rejected :
    wgan_init ⟨"node", "fcn"⟩ =
        Except.error ("Unknown generator architecture: node") ∧
      create_critic ⟨"node", "fcn"⟩ = Except.ok NetModel.fcnModel := by
  constructor
  · unfold wgan_init create_generator
    rw [if_neg (pyLower_ne_NODE _), if_neg (pyLower_ne_FCN _)]
    rfl
  · unfold create_critic
    rw [if_neg (show ¬pyLower ("fcn") = "node" by decide),
      if_pos (show pyLower ("fcn") = "fcn" by decide)]

/-- Tensor shape: the list of dimension sizes, outermost first. -/
abbrev Shape := List Nat

/-- Shape semantics of `tensor.unsqueeze(dim=1)`: insert a size-1 axis at
position 1. On a 0-dimensional tensor Python raises an `IndexError`. -/
def unsqueeze1 (s : Shape) : Except String Shape :=
  match s with
  | [] => Except.error ("Dimension out of range")
  | d :: rest => Except.ok (d :: 1 :: rest)

/-- Shape semantics of `torch.cat([a, b], dim=1)`: both tensors need at
least two axes, must agree on every axis except axis 1, and the result
sums axis 1. -/
def cat_dim1 (a b : Shape) : Except String Shape :=
  match a, b with
  | a0 :: a1 :: arest, b0 :: b1 :: brest =>
      if a0 = b0 ∧ arest = brest then Except.ok (a0 :: (a1 + b1) :: arest)
      else Except.error ("Sizes of tensors must match except in dimension 1")
  | _, _ => Except.error ("Tensors must have the same number of dimensions")

/-- Modelled from the spec: `get_noise` lives in the `models` package and
is absent from the sources. Per the spec's data model, it produces a fresh
noise tensor of shape `[N, Z]` for batch size `N` and `z_dimensions = Z`. -/
def get_noise_shape (n zdim : Nat) : Shape :=
  [n, zdim]

/-- Shape-level embedding of the sample construction shared by
`WGAN.train_critic` (`wgan.py` lines 110–122): unsqueeze the target,
concatenate features with noise, build `real_full = cat([dlls, x], 1)` and
`generated = cat([generator(noized_x), x], 1)`. `genShape` is the shape
function of the external generator network. Returns the pair
(generated sample shape, real sample shape). -/
def train_critic_shapes (genShape : Shape → Except String Shape) (zdim : Nat)
    (x dlls : Shape) : Except String (Shape × Shape) := do
  let dllsU ← unsqueeze1 dlls
  match x with
  | [] => Except.error ("tuple index out of range")
  | n :: _ => do
      let noized_x ← cat_dim1 x (get_noise_shape n zdim)
      let real_full ← cat_dim1 dllsU x
      let genOut ← genShape noized_x
      let generated ← cat_dim1 genOut x
      Except.ok (generated, real_full)

/-- Shape-level embedding of the sample construction in
`WGAN.train_generator` (`wgan.py` lines 87–99), which is line for line the
same construction as in `train_critic`. -/
def train_generator_shapes (genShape : Shape → Except String Shape) (zdim : Nat)
    (x dlls : Shape) : Except String (Shape × Shape) := do
  let dllsU ← unsqueeze1 dlls
  match x with
  | [] => Except.error ("tuple index out of range")
  | n :: _ => do
      let noized_x ← cat_dim1 x (get_noise_shape n zdim)
      let real_full ← cat_dim1 dllsU x
      let genOut ← genShape noized_x
      let generated ← cat_dim1 genOut x
      Except.ok (generated, real_full)

/-- Reduction of a successful step of an `Except` computation. -/
theorem except_bind_ok {α β : Type} (a : α) (f : α → Except String β) :
    (Except.ok a >>= f) = f a :=
  rfl

/-- C10 (counterevidence): with a target of shape `[N, 1]` — allowed by
the claim — the unconditional `unsqueeze(dim=1)` produces `[N, 1, 1]`, and
`torch.cat([dlls, x], dim=1)` against the `[N, F]` features fails with a
shape error instead of producing a `[N, 1+F]` real sample; here at
`N = 2`, `F = 3`, `Z = 2` with a generator mapping `[N, D]` to `[N, 1]`. -/
theorem C10_target_Nx1_fails :
    train_critic_shapes (fun s => Except.ok [s.headD 0, 1]) 2 [2, 3] [2, 1] =
      Except.error ("Sizes of tensors must match except in dimension 1") := by
  rfl

/-- C10 (amended): for every batch with features of shape `[N, F]` and
target of shape `[N]`, and a generator whose output on the conditioned
input `[N, F+Z]` has shape `[N, 1]` (the spec's data model), the generated
sample and the real sample constructed inside `train_generator` and
`train_critic` both have the identical shape `[N, 1+F]`. -/
theorem C10_same_shape (N F Z : Nat) (genShape : Shape → Except String Shape)
    (hgen : genShape [N, F + Z] = Except.ok [N, 1]) :
    train_critic_shapes genShape Z [N, F] [N] = Except.ok ([N, 1 + F], [N, 1 + F]) ∧
      train_generator_shapes genShape Z [N, F] [N] =
        Except.ok ([N, 1 + F], [N, 1 + F]) := by
  constructor
  · simp [train_critic_shapes, unsqueeze1, cat_dim1, get_noise_shape, hgen, except_bind_ok]
  · simp [train_generator_shapes, unsqueeze1, cat_dim1, get_noise_shape, hgen,
      except_bind_ok]

/-- C10 witness: concrete instance at `N = 4`, `F = 3`, `Z = 2`. -/
theorem C10_same_shape_witness :
    train_critic_shapes (fun s => Except.ok [s.headD 0, 1]) 2 [4, 3] [4] =
        Except.ok ([4, 4], [4, 4]) ∧
      train_generator_shapes (fun s => Except.ok [s.headD 0, 1]) 2 [4, 3] [4] =
        Except.ok ([4, 4], [4, 4]) :=
  C10_same_shape 4 3 2 (fun s => Except.ok [s.headD 0, 1]) rfl

/-- Cumulative `step()` call counts of the two optimizers built in
`Trainer.__init__` from `gan_model.configure_optimizers()`. -/
structure OptCounters where
  criticSteps : Nat
  genSteps : Nat
deriving DecidableEq

/-- Embedding of the inner critic loop of `Trainer.fit` (`trainer.py`
lines 67–74): `for _ in range(critic_step)`, each pass ending in
`critic_optimizer.step()`. -/
def critic_inner_loop : Nat → OptCounters → OptCounters
  | 0, c => c
  | k + 1, c => critic_inner_loop k ⟨c.criticSteps + 1, c.genSteps⟩

/-- Embedding of one full outer iteration of `Trainer.fit` (`trainer.py`
lines 66–88), restricted to the optimizer `step()` calls it performs: the
critic loop runs `critic_step` times, then `generator_optimizer.step()`
runs once unless `freeze_generator` is set. -/
def outer_iteration (critic_step : Nat) (freeze_generator : Bool)
    (c : OptCounters) : OptCounters :=
  let c1 := critic_inner_loop critic_step c
  if freeze_generator then c1 else ⟨c1.criticSteps, c1.genSteps + 1⟩

/-- The critic loop adds exactly its trip count to the critic counter and
leaves the generator counter alone. -/
theorem critic_inner_loop_counts (k : Nat) (c : OptCounters) :
    critic_inner_loop k c = ⟨c.criticSteps + k, c.genSteps⟩ := by
  induction k generalizing c with
  | zero => rfl
  | succ n ih =>
      show critic_inner_loop n ⟨c.criticSteps + 1, c.genSteps⟩ = _
      rw [ih]
      simp only [OptCounters.mk.injEq]
      refine ⟨?_, trivial⟩
      show c.criticSteps + 1 + n = c.criticSteps + (n + 1)
      omega

/-- C6: across one full outer iteration of the training loop with
`critic_step = k`, the critic optimizer's step count increases by exactly
`k`, and the generator optimizer's step count increases by exactly 1 when
`freeze_generator` is unset and by exactly 0 when it is set. -/
theorem C6_step_counts (k : Nat) (freeze : Bool) (c : OptCounters) :
    (outer_iteration k freeze c).criticSteps = c.criticSteps + k ∧
      (outer_iteration k freeze c).genSteps =
        c.genSteps + (if freeze then 0 else 1) := by
  unfold outer_iteration
  rw [critic_inner_loop_counts]
  cases freeze <;> simp

/-- Side effects the training loop can perform at the end of an iteration
(`trainer.py` lines 90–100), in program order. -/
inductive Effect where
  | mkdirEffect (path : String) : Effect
  | saveModelsEffect (path : String) (epoch : Nat) : Effect
  | evaluateEffect : Effect
  | logImageEffect (name : String) : Effect
  | logMetricEffect (name : String) : Effect
deriving DecidableEq

/-- Checkpoint file name built at `trainer.py` line 91:
`f"epoch_{epoch}_iter_{iteration}.pt"`. -/
def checkpoint_name (epoch iteration : Nat) : String :=
  "epoch_" ++ toString epoch ++ "_iter_" ++ toString iteration ++ ".pt"

/-- Python `os.path.join` for the one-argument relative-path uses in the
trainer: append with a separator unless one is already present. -/
def os_path_join (dir name : String) : String :=
  if dir = "" then name
  else if dir.data.getLast? = some '/' then dir ++ name
  else dir ++ "/" ++ name

/-- Embedding of the periodic checkpoint/evaluation branch of
`Trainer.fit` (`trainer.py` lines 90–100) as the list of side effects it
emits, in program order: when `iteration % display_step == 0`, create the
save directory if it does not exist, save the models under the
checkpoint name, run `evaluate` on the validation loader, and log the
returned `"Histograms"` image and `"rocauc"` scalar. `display_step` is
assumed positive: at 0 Python would raise `ZeroDivisionError`. -/
def display_branch (epoch iteration display_step : Nat) (save_path : String)
    (save_dir_exists : Bool) : List Effect :=
  if iteration % display_step = 0 then
    (if save_dir_exists then [] else [Effect.mkdirEffect save_path]) ++
      [Effect.saveModelsEffect
          (os_path_join save_path (checkpoint_name epoch iteration)) epoch,
        Effect.evaluateEffect,
        Effect.logImageEffect ("Histograms"),
        Effect.logMetricEffect ("rocauc")]
  else []

/-- C7: at every iteration whose index is a multiple of `display_step`,
the training loop persists a checkpoint named
`epoch_<epoch>_iter_<iteration>.pt` to the save directory (creating the
directory if absent), runs `evaluate()` on the validation loader, and
emits the returned histogram image and scalar `rocauc` score to the
metrics sink. -/
theorem C7_display_step_checkpoint (epoch iteration display_step : Nat)
    (save_path : String) (save_dir_exists : Bool) (_hd : 0 < display_step)
    (h : iteration % display_step = 0) :
    display_branch epoch iteration display_step save_path save_dir_exists =
      (if save_dir_exists then [] else [Effect.mkdirEffect save_path]) ++
        [Effect.saveModelsEffect
            (os_path_join save_path
              ("epoch_" ++ toString epoch ++ "_iter_" ++ toString iteration ++ ".pt"))
            epoch,
          Effect.evaluateEffect,
          Effect.logImageEffect ("Histograms"),
          Effect.logMetricEffect ("rocauc")] := by
  unfold display_branch checkpoint_name
  rw [if_pos h]

/-- C7 witness: epoch 1, iteration 2000, `display_step` 1000, save path
`"."` not yet existing. -/
theorem C7_display_step_checkpoint_witness :
    display_branch 1 2000 1000 (".") false =
      [Effect.mkdirEffect ("."),
        Effect.saveModelsEffect ("./epoch_1_iter_2000.pt") 1,
        Effect.evaluateEffect,
        Effect.logImageEffect ("Histograms"),
        Effect.logMetricEffect ("rocauc")] := by
  rw [C7_display_step_checkpoint 1 2000 1000 (".") false (by decide) (by decide)]
  rfl

/-- Parameter state of the adversarial pair: the generator's parameters
(type `P`) and the critic's parameters (type `Q`), owned by `WGAN`. -/
structure GanParamState (P Q : Type) where
  genParams : P
  criticParams : Q

/-- Embedding of `generator_optimizer.step()`: the generator optimizer is
constructed in `WGAN.configure_optimizers` (`wgan.py` lines 25–30) over
`generator_model.parameters()` only, so a step rewrites the generator
parameters and nothing else. -/
def generator_optimizer_step {P Q : Type} (upd : P → P) (s : GanParamState P Q) :
    GanParamState P Q :=
  ⟨upd s.genParams, s.criticParams⟩

/-- Embedding of `critic_optimizer.step()`: the critic optimizer is
constructed in `WGAN.configure_optimizers` (`wgan.py` lines 34–39) over
`critic_model.parameters()` only, so a step rewrites the critic
parameters and nothing else. -/
def critic_optimizer_step {P Q : Type} (upd : Q → Q) (s : GanParamState P Q) :
    GanParamState P Q :=
  ⟨s.genParams, upd s.criticParams⟩

/-- Autograd-graph abstraction of a tensor: which network's parameters a
backward pass started from the tensor can reach. Loader data depends on
neither network; applying a network to a tensor makes that network's
parameters reachable; `detach()` cuts the graph; concatenation and
arithmetic union the dependencies of their inputs; `mean` and scalar
multiplication preserve them. -/
structure GTensor where
  reachesGen : Bool
  reachesCrit : Bool
deriving DecidableEq

/-- Graph effect of `torch.cat` and of binary arithmetic: union of the
input dependencies. -/
def gcat (a b : GTensor) : GTensor :=
  ⟨a.reachesGen || b.reachesGen, a.reachesCrit || b.reachesCrit⟩

/-- Graph effect of `tensor.detach()`: the result is cut off from every
upstream parameter. -/
def gdetach (_ : GTensor) : GTensor :=
  ⟨false, false⟩

/-- Graph effect of a generator forward pass. -/
def gApplyGenerator (a : GTensor) : GTensor :=
  ⟨true, a.reachesCrit⟩

/-- Graph effect of a critic forward pass. -/
def gApplyCritic (a : GTensor) : GTensor :=
  ⟨a.reachesGen, true⟩

/-- Graph effect of `torch.mean` (unary, dependency-preserving). -/
def gmean (a : GTensor) : GTensor :=
  a

/-- Graph effect of subtraction: union of the input dependencies. -/
def gsub (a b : GTensor) : GTensor :=
  gcat a b

/-- Graph effect of multiplication by the constant 10
(dependency-preserving). -/
def gscale (a : GTensor) : GTensor :=
  a

/-- Modelled from the spec: the graph dependencies of the gradient rows
returned by `get_gradient`, which lives in the `models` package and is
absent from the sources. Per spec section 4.2 the gradient-penalty
computation "must itself remain differentiable so the critic-loss
backward pass can propagate through the penalty term" — its output's
graph reaches the critic parameters — and "must not allow gradients to
leak into the generator's parameters". -/
def get_gradient_graph (_real _generated _epsilon : GTensor) : GTensor :=
  ⟨false, true⟩

/-- Modelled from the spec: `gradient_penalty` (absent from the sources)
maps the gradient rows elementwise to `(norm − 1)^2` and averages, all
dependency-preserving operations. -/
def gradient_penalty_graph (gradient : GTensor) : GTensor :=
  gradient

/-- Graph-level embedding of `WGAN.train_critic` (`wgan.py` lines
110–149): the dependency bookkeeping of every tensor it builds, ending at
the returned `C/loss` tensor. `x`, `dlls` and the fresh noise are loader
or sampled data and depend on no parameters. -/
def train_critic_graph : GTensor :=
  let x : GTensor := ⟨false, false⟩
  let dlls : GTensor := ⟨false, false⟩
  let noise : GTensor := ⟨false, false⟩
  let noized_x := gcat x noise
  let real_full := gcat dlls x
  let generated := gcat (gApplyGenerator noized_x) x
  let crit_fake_pred := gApplyCritic (gdetach generated)
  let crit_real_pred := gApplyCritic real_full
  let crit_fake_pred_mean := gmean crit_fake_pred
  let crit_real_pred_mean := gmean crit_real_pred
  let critic_loss := gsub crit_fake_pred_mean crit_fake_pred_mean
  let epsilon : GTensor := ⟨false, false⟩
  let gradient := get_gradient_graph real_full generated epsilon
  let gp := gradient_penalty_graph gradient
  let _ := crit_real_pred_mean
  gcat critic_loss (gscale gp)

/-- C4: a critic update never changes generator parameters. The `C/loss`
tensor built by `train_critic` cannot reach the generator's parameters
(the generated sample is scored by the critic in detached form, and the
gradient-penalty computation lets no gradient reach the generator), so
backpropagating it deposits no generator gradient; and the critic
optimizer's `step()` rewrites only critic parameters, leaving every
generator parameter unchanged. -/
theorem C4_critic_step_frames_generator :
    train_critic_graph.reachesGen = false ∧
      ∀ (P Q : Type) (upd : Q → Q) (s : GanParamState P Q),
        (critic_optimizer_step upd s).genParams = s.genParams :=
  ⟨rfl, fun _ _ _ _ => rfl⟩

noncomputable section

/-- Value of `torch.mean` on a flat tensor: sum divided by length. -/
def tmean (l : List ℝ) : ℝ :=
  l.sum / (l.length : ℝ)

/-- Scale a row of a tensor elementwise by a scalar (the broadcast
multiplication `epsilon * tensor` for one example). -/
def rscale (a : ℝ) (v : List ℝ) : List ℝ :=
  v.map (fun t => a * t)

/-- Add two rows elementwise. -/
def radd (u v : List ℝ) : List ℝ :=
  List.zipWith (fun s t => s + t) u v

/-- Euclidean norm of a row over its feature dimension. -/
def enorm (v : List ℝ) : ℝ :=
  Real.sqrt ((v.map (fun t => t ^ 2)).sum)

/-- Modelled from the spec: `get_gradient` lives in the `models` package
and is absent from the sources. Per spec section 4.2 it forms the
interpolated sample `epsilon * real + (1 − epsilon) * generated` — the
per-example `epsilon` scalar broadcast across the feature dimension, as
built at `wgan.py` lines 132–133 — and returns the critic's gradient with
respect to the interpolated input, one row per example. `criticGrad` is
the critic's gradient oracle at a given input row. -/
def get_gradient (criticGrad : List ℝ → List ℝ) (real generated : List (List ℝ))
    (epsilon : List ℝ) : List (List ℝ) :=
  (List.zip (List.zip real generated) epsilon).map
    (fun p => criticGrad (radd (rscale p.2 p.1.1) (rscale (1 - p.2) p.1.2)))

/-- Modelled from the spec: `gradient_penalty` lives in the `models`
package and is absent from the sources. Per spec section 4.2 it takes the
per-example Euclidean norm of each gradient row and returns the mean over
the batch of `(norm − 1)^2`. -/
def gradient_penalty (gradient : List (List ℝ)) : ℝ :=
  tmean (gradient.map (fun g => (enorm g - 1) ^ 2))

/-- The gradient penalty is a mean of squares, hence non-negative for all
inputs. -/
theorem gradient_penalty_nonneg (gradient : List (List ℝ)) :
    0 ≤ gradient_penalty gradient := by
  unfold gradient_penalty tmean
  apply div_nonneg
  · apply List.sum_nonneg
    intro a ha
    simp only [List.mem_map] at ha
    obtain ⟨g, hg, rfl⟩ := ha
    exact sq_nonneg _
  · exact Nat.cast_nonneg _

/-- Values returned by `WGAN.train_critic` in its result dictionary: the
fields are, in order, the entries `C/loss`, `C/fake_pred`, `C/real_pred`
and `gradient penalty`. -/
structure CriticResult where
  loss : ℝ
  fake_pred : ℝ
  real_pred : ℝ
  gp : ℝ

/-- Value-level embedding of `WGAN.train_critic` (`wgan.py` lines
110–149). A batch is the features `x` (one row per example) and the
targets `dlls` (one scalar per example; `unsqueeze` makes the target a
one-element row, which `d :: xi` realizes rowwise). `noise` stands for
the fresh `get_noise` sample and `epsilon` for the fresh per-example
`torch.rand(N, 1)` sample, both passed in explicitly; `generator` and
`critic` are the two networks (rowwise), `criticGrad` the critic's
gradient oracle used by the penalty. Scoring the generated sample uses
its detached copy, which has the same value. The loss is computed at
line 130 as `crit_fake_pred_mean - crit_fake_pred_mean` and the penalty
is added at line 140 as `critic_loss += 10 * gp`. -/
def train_critic (generator : List ℝ → List ℝ) (critic : List ℝ → ℝ)
    (criticGrad : List ℝ → List ℝ) (x : List (List ℝ)) (dlls : List ℝ)
    (noise : List (List ℝ)) (epsilon : List ℝ) : CriticResult :=
  let noized_x := List.zipWith (fun xi ni => xi ++ ni) x noise
  let real_full := List.zipWith (fun d xi => d :: xi) dlls x
  let generated := List.zipWith (fun nx xi => generator nx ++ xi) noized_x x
  let crit_fake_pred := generated.map critic
  let crit_real_pred := real_full.map critic
  let crit_fake_pred_mean := tmean crit_fake_pred
  let crit_real_pred_mean := tmean crit_real_pred
  let critic_loss := crit_fake_pred_mean - crit_fake_pred_mean
  let gradient := get_gradient criticGrad real_full generated epsilon
  let gp := gradient_penalty gradient
  ⟨critic_loss + 10 * gp, crit_fake_pred_mean, crit_real_pred_mean, gp⟩

/-- Value returned by `WGAN.train_generator` under the key `G/loss`. -/
structure GeneratorResult where
  loss : ℝ

/-- Value-level embedding of `WGAN.train_generator` (`wgan.py` lines
87–108): same batch decoding and sample construction as `train_critic`
(the `real_full` binding is built and never used, as at line 98), then
the generated sample is scored by the critic and the loss is the negated
mean score. No optimizer is touched and no parameter is written. -/
def train_generator (generator : List ℝ → List ℝ) (critic : List ℝ → ℝ)
    (x : List (List ℝ)) (dlls : List ℝ) (noise : List (List ℝ)) : GeneratorResult :=
  let noized_x := List.zipWith (fun xi ni => xi ++ ni) x noise
  let real_full := List.zipWith (fun d xi => d :: xi) dlls x
  let generated := List.zipWith (fun nx xi => generator nx ++ xi) noized_x x
  let crit_fake_pred := generated.map critic
  let _ := real_full
  ⟨-tmean crit_fake_pred⟩

/-- Python exceptions surfaced by the embedded methods. -/
inductive PyError where
  | unboundLocalError (name : String) : PyError
deriving DecidableEq

/-- Embedding of `WGAN.generate` (`wgan.py` lines 151–165). The body
unpacks `x, _ = batch`, discarding the target, and then executes
`dlls = dlls.to(...)`: because `dlls` is assigned inside the function,
Python treats it as a local variable, and reading it on the right-hand
side before any assignment raises `UnboundLocalError`. The remaining
lines (fresh noise, concatenation, generator forward) are never
reached. -/
def generate (generator : List ℝ → List ℝ) (noise : List (List ℝ))
    (batch : List (List ℝ) × List ℝ) : Except PyError (List (List ℝ)) :=
  let x := batch.1
  let dllsLocal : Option (List ℝ) := none
  match dllsLocal with
  | none => Except.error (PyError.unboundLocalError ("dlls"))
  | some dlls =>
      let _ := dlls
      let noized_x := List.zipWith (fun xi ni => xi ++ ni) x noise
      let generated := noized_x.map generator
      Except.ok generated

/-- C1 (counterevidence): for every batch, every pair of networks and
every noise and epsilon sample, the `C/loss` value returned by
`train_critic` equals `10 ×` the gradient penalty alone: the Wasserstein
term is `crit_fake_pred_mean - crit_fake_pred_mean`, which cancels, so
the mean critic scores on the real and generated samples do not enter
the loss. -/
theorem C1_critic_loss_is_penalty_only (generator : List ℝ → List ℝ)
    (critic : List ℝ → ℝ) (criticGrad : List ℝ → List ℝ) (x : List (List ℝ))
    (dlls : List ℝ) (noise : List (List ℝ)) (epsilon : List ℝ) :
    (train_critic generator critic criticGrad x dlls noise epsilon).loss =
      10 * (train_critic generator critic criticGrad x dlls noise epsilon).gp := by
  simp [train_critic]

/-- C5 (counterevidence): every call to `generate`, whatever the batch,
the generator and the noise, raises `UnboundLocalError` on the name
`dlls` instead of returning generated features. -/
theorem C5_generate_always_raises (generator : List ℝ → List ℝ)
    (noise : List (List ℝ)) (batch : List (List ℝ) × List ℝ) :
    generate generator noise batch =
      Except.error (PyError.unboundLocalError ("dlls")) :=
  rfl

/-- C8: the gradient penalty computed inside `train_critic` equals the
mean over the batch of `(per-example Euclidean gradient norm − 1)^2`,
the gradient being taken at the interpolated sample
`epsilon * real + (1 − epsilon) * generated` with the per-example
`epsilon` broadcast across the feature dimension; and the penalty is
non-negative for all inputs. -/
theorem C8_gradient_penalty_form_and_nonneg (generator : List ℝ → List ℝ)
    (critic : List ℝ → ℝ) (criticGrad : List ℝ → List ℝ) (x : List (List ℝ))
    (dlls : List ℝ) (noise : List (List ℝ)) (epsilon : List ℝ) :
    (train_critic generator critic criticGrad x dlls noise epsilon).gp =
        tmean ((List.zip (List.zip
              (List.zipWith (fun d xi => d :: xi) dlls x)
              (List.zipWith (fun nx xi => generator nx ++ xi)
                (List.zipWith (fun xi ni => xi ++ ni) x noise) x)) epsilon).map
          (fun p =>
            (enorm (criticGrad (radd (rscale p.2 p.1.1) (rscale (1 - p.2) p.1.2))) - 1)
              ^ 2)) ∧
      0 ≤ (train_critic generator critic criticGrad x dlls noise epsilon).gp := by
  constructor
  · simp only [train_critic, gradient_penalty, get_gradient, List.map_map]
    rfl
  · exact gradient_penalty_nonneg _

/-- C9: for every batch, `train_generator` returns under the key `G/loss`
the negative of the mean critic score over the generated samples of the
batch; and it performs no update to critic state — the only write to
critic parameters in the training loop is `critic_optimizer.step()`,
and the generator optimizer's step rewrites generator parameters only. -/
theorem C9_generator_loss_and_critic_frame (generator : List ℝ → List ℝ)
    (critic : List ℝ → ℝ) (x : List (List ℝ)) (dlls : List ℝ)
    (noise : List (List ℝ)) :
    (train_generator generator critic x dlls noise).loss =
        -tmean ((List.zipWith (fun nx xi => generator nx ++ xi)
            (List.zipWith (fun xi ni => xi ++ ni) x noise) x).map critic) ∧
      ∀ (P Q : Type) (upd : P → P) (s : GanParamState P Q),
        (generator_optimizer_step upd s).criticParams = s.criticParams :=
  ⟨rfl, fun _ _ _ _ => rfl⟩

end
